import Mathlib

set_option linter.unnecessarySeqFocus false

/-!
Verification of the ESP32 WiFi repeater firmware (`src/Esp32.c++`):
a shallow embedding of its runtime configuration reconciliation engine
(`ConfigCallbacks::parseConfig`, `applySettings`, `applyPowerSavingSettings`,
`updateBLEStatus`) and of its connectivity supervisor
(`loop`, `connectToPrimaryWiFi`), together with theorems about them.

Modelling conventions:
* The global configuration variables (lines 19-29 of the source) are gathered
  into one `Store` structure; C++ `String` becomes `String`, `int` becomes
  `Int`, `uint8_t powerSaveMode` becomes `Nat` with the esp-idf encoding
  WIFI_PS_NONE = 0, WIFI_PS_MIN_MODEM = 1, WIFI_PS_MAX_MODEM = 2, and
  `uint16_t listenInterval` becomes `Int` (its range is enforced by the code).
* A BLE configuration write is a sparse JSON object; its deserialization is
  library code (ArduinoJson), so the embedded `parseConfig` receives the
  deserialization outcome: `.error` for malformed JSON, `.ok u` for a parsed
  document whose optional typed fields mirror `doc.containsKey`/`doc[..].as`.
* Calls into the radio / BLE facade are recorded as an `Effect` trace in the
  order the code issues them.
* `millis()` is modelled as a `Nat` clock; the code only ever subtracts an
  earlier `millis()` sample from a later one, where unsigned wraparound
  subtraction and `Nat` subtraction agree.
-/

/-- The process-wide configuration globals, `src/Esp32.c++` lines 19-29. -/
structure Store where
  primarySSID : String
  primaryPassword : String
  apSSID : String
  apPassword : String
  apChannel : Int
  maxClients : Int
  powerSavingEnabled : Bool
  powerSaveMode : Nat
  listenInterval : Int
deriving DecidableEq, Repr

/-- The boot-time values of the configuration globals (lines 19-29):
`"Shivam5G"`, `""`, `"Shivam5G_Repeater"`, `""`, channel 7, 8 clients,
power saving on, WIFI_PS_MIN_MODEM (= 1), listen interval 3. -/
def defaultStore : Store :=
  ⟨"Shivam5G", "", "Shivam5G_Repeater", "", 7, 8, true, 1, 3⟩

/-- One parsed configuration document: each optional field is `some v` exactly
when the corresponding JSON key is present (`doc.containsKey`), with `v` the
value `doc[key].as<T>()` yields. -/
structure ConfigUpdate where
  primarySSID : Option String
  primaryPass : Option String
  apSSID : Option String
  apPass : Option String
  channel : Option Int
  maxClients : Option Int
  powerSaving : Option Bool
  powerMode : Option Int
  listenInterval : Option Int
deriving DecidableEq, Repr

/-- A configuration update that carries no keys at all. -/
def ConfigUpdate.empty : ConfigUpdate :=
  ⟨none, none, none, none, none, none, none, none, none⟩

/-- Calls issued to the WiFi / BLE facade, in program order. -/
inductive Effect where
  /-- Call `esp_wifi_set_ps(mode)` (lines 354 and 365). -/
  | setPowerSave (mode : Nat)
  /-- Call `esp_wifi_set_config` with `sta.listen_interval = n` (lines 357-360). -/
  | setListenInterval (n : Int)
  /-- Call `WiFi.softAPConfig(apIP, apIP, apNetmask)` (line 339). -/
  | softAPConfig
  /-- Call `WiFi.softAP(ssid, pass, channel, 0, maxClients)` (line 340). -/
  | softAPStart (ssid pw : String) (channel : Int) (hidden : Nat) (maxConn : Int)
  /-- Call `WiFi.disconnect()` inside `connectToPrimaryWiFi` (line 307). -/
  | staDisconnect
  /-- Call `WiFi.begin(ssid, pass)` inside `connectToPrimaryWiFi` (line 311). -/
  | staBegin (ssid pw : String)
  /-- The `updateBLEStatus()` call (line 348). -/
  | statusPush
deriving DecidableEq, Repr

/-- Function `applyPowerSavingSettings` (lines 351-368) as its facade-call trace. -/
def applyPowerSavingSettings (s : Store) : List Effect :=
  if s.powerSavingEnabled then
    [Effect.setPowerSave s.powerSaveMode, Effect.setListenInterval s.listenInterval]
  else
    [Effect.setPowerSave 0]

/-- Facade calls of `connectToPrimaryWiFi` as seen from `applySettings`
(lines 307 and 311); the status polling and logging issue no facade calls. -/
def connectEffects (s : Store) : List Effect :=
  [Effect.staDisconnect, Effect.staBegin s.primarySSID s.primaryPassword]

/-- Function `applySettings(reconnectWifi)` (lines 334-349) as its facade-call trace,
reading the already-mutated globals `s`. -/
def applySettings (s : Store) (reconnectWifi : Bool) : List Effect :=
  applyPowerSavingSettings s
    ++ [Effect.softAPConfig,
        Effect.softAPStart s.apSSID s.apPassword s.apChannel 0 s.maxClients]
    ++ (if reconnectWifi then connectEffects s else [])
    ++ [Effect.statusPush]

/-!
`ConfigCallbacks::parseConfig` (lines 78-177) processes the seven key groups
in source order, threading the globals and the two flags
`(configChanged, wifiChanged)`.  Each contiguous block of the C++ body is one
`step` function below; `parseConfigFields` is their composition in source
order.  The state is `Store × Bool × Bool = (globals, configChanged,
wifiChanged)`.
-/

/-- Lines 92-103: primary WiFi credentials, processed only when both
`primarySSID` and `primaryPass` keys are present. -/
def stepPrimary (ssidOpt passOpt : Option String) (x : Store × Bool × Bool) :
    Store × Bool × Bool :=
  match ssidOpt, passOpt with
  | some newSSID, some newPass =>
    if newSSID ≠ x.1.primarySSID ∨ newPass ≠ x.1.primaryPassword then
      ({ x.1 with primarySSID := newSSID, primaryPassword := newPass }, true, true)
    else x
  | _, _ => x

/-- Lines 106-116: AP credentials, processed only when both `apSSID` and
`apPass` keys are present; sets `configChanged` but not `wifiChanged`. -/
def stepAP (ssidOpt passOpt : Option String) (x : Store × Bool × Bool) :
    Store × Bool × Bool :=
  match ssidOpt, passOpt with
  | some newAPSSID, some newAPPass =>
    if newAPSSID ≠ x.1.apSSID ∨ newAPPass ≠ x.1.apPassword then
      ({ x.1 with apSSID := newAPSSID, apPassword := newAPPass }, true, x.2.2)
    else x
  | _, _ => x

/-- Lines 119-126: AP channel, accepted when it differs and lies in 1..13. -/
def stepChannel (chOpt : Option Int) (x : Store × Bool × Bool) :
    Store × Bool × Bool :=
  match chOpt with
  | some newChannel =>
    if newChannel ≠ x.1.apChannel ∧ 1 ≤ newChannel ∧ newChannel ≤ 13 then
      ({ x.1 with apChannel := newChannel }, true, x.2.2)
    else x
  | none => x

/-- Lines 129-136: max clients, accepted when it differs and lies in 1..10. -/
def stepMaxClients (mcOpt : Option Int) (x : Store × Bool × Bool) :
    Store × Bool × Bool :=
  match mcOpt with
  | some newMaxClients =>
    if newMaxClients ≠ x.1.maxClients ∧ 0 < newMaxClients ∧ newMaxClients ≤ 10 then
      ({ x.1 with maxClients := newMaxClients }, true, x.2.2)
    else x
  | none => x

/-- Lines 139-147: power-saving enable flag, accepted when it differs. -/
def stepPowerSaving (psOpt : Option Bool) (x : Store × Bool × Bool) :
    Store × Bool × Bool :=
  match psOpt with
  | some newPowerSaving =>
    if newPowerSaving ≠ x.1.powerSavingEnabled then
      ({ x.1 with powerSavingEnabled := newPowerSaving }, true, x.2.2)
    else x
  | none => x

/-- Lines 149-161: power-save mode.  The code checks only the range 0..2 and
then always sets `configChanged = true` — unlike every other field it does
NOT compare the new value with the stored one.  The `switch` maps 0/1/2 to
WIFI_PS_NONE/WIFI_PS_MIN_MODEM/WIFI_PS_MAX_MODEM, i.e. to the same number. -/
def stepPowerMode (pmOpt : Option Int) (x : Store × Bool × Bool) :
    Store × Bool × Bool :=
  match pmOpt with
  | some newPowerMode =>
    if 0 ≤ newPowerMode ∧ newPowerMode ≤ 2 then
      ({ x.1 with powerSaveMode := newPowerMode.toNat }, true, x.2.2)
    else x
  | none => x

/-- Lines 163-171: listen interval, accepted when it differs and lies in 1..10. -/
def stepListenInterval (liOpt : Option Int) (x : Store × Bool × Bool) :
    Store × Bool × Bool :=
  match liOpt with
  | some newInterval =>
    if newInterval ≠ x.1.listenInterval ∧ 1 ≤ newInterval ∧ newInterval ≤ 10 then
      ({ x.1 with listenInterval := newInterval }, true, x.2.2)
    else x
  | none => x

/-- Lines 88-171 of `parseConfig`: the seven field blocks in source order,
starting from `configChanged = wifiChanged = false`. -/
def parseConfigFields (doc : ConfigUpdate) (s : Store) : Store × Bool × Bool :=
  stepListenInterval doc.listenInterval
    (stepPowerMode doc.powerMode
      (stepPowerSaving doc.powerSaving
        (stepMaxClients doc.maxClients
          (stepChannel doc.channel
            (stepAP doc.apSSID doc.apPass
              (stepPrimary doc.primarySSID doc.primaryPass (s, false, false)))))))

/-- Function `ConfigCallbacks::parseConfig` (lines 78-177).  A deserialization error
(lines 82-86) only logs and returns: no global changes, no facade calls.
Otherwise the fields are processed and, when `configChanged` ended true,
`applySettings(wifiChanged)` runs (lines 174-176). -/
def parseConfig (doc : Except String ConfigUpdate) (s : Store) :
    Store × List Effect :=
  match doc with
  | Except.error _ => (s, [])
  | Except.ok d =>
    match parseConfigFields d s with
    | (s2, configChanged, wifiChanged) =>
      (s2, if configChanged then applySettings s2 wifiChanged else [])

/-- Folding a whole sequence of BLE configuration writes over the store. -/
def applyAll (docs : List (Except String ConfigUpdate)) (s : Store) : Store :=
  docs.foldl (fun st d => (parseConfig d st).1) s

/-!
Connectivity supervisor: `connectToPrimaryWiFi` (lines 302-332) and the
reconnect logic at the top of `loop` (lines 203-217).  The WiFi link status
is an external input: within one `connectToPrimaryWiFi` call it is modelled
as `st : Nat → Bool`, where `st k` is what the k-th `WiFi.status()` read of
that call returns (`true` = `WL_CONNECTED`).  Loop reads happen at indices
0, 1, ..., and the final `if (WiFi.status() == WL_CONNECTED)` read follows.
-/

/-- The mutable supervisor state: `isPrimaryConnected` (line 36) and
`lastReconnectAttempt` (line 37). -/
structure ConnState where
  isPrimaryConnected : Bool
  lastReconnectAttempt : Nat
deriving DecidableEq, Repr

/-- Constant `reconnectInterval` (line 38): 30000 ms. -/
def reconnectInterval : Nat := 30000

/-- The polling loop of lines 314-319:
`while (WiFi.status() != WL_CONNECTED && connectionAttempts < 20)`.
`a` is `connectionAttempts` (also the index of the next status read); the
result is the final value of `connectionAttempts`.  `fuel` makes the
recursion structural; since `a` grows by 1 per iteration and the loop guard
forces `a < 20`, fuel 21 from `a = 0` is never exhausted before the guard
stops the loop. -/
def connectAttemptLoop (st : Nat → Bool) : Nat → Nat → Nat
  | a, 0 => a
  | a, fuel + 1 =>
    if st a = false ∧ a < 20 then connectAttemptLoop st (a + 1) fuel else a

/-- Function `connectToPrimaryWiFi` (lines 302-332).  Returns the new supervisor
state and the number of poll delays taken.  Timing: `delay(100)` after
`WiFi.disconnect()` (line 308) and one `delay(1000)` per loop iteration
(line 316); `lastReconnectAttempt = millis()` runs at the end in both the
success and the give-up branch (line 331).  The final status read (line 322)
has index `polls + 1` and decides `isPrimaryConnected`. -/
def connectToPrimaryWiFi (st : Nat → Bool) (now : Nat) : ConnState × Nat :=
  let polls := connectAttemptLoop st 0 21
  let finish := now + 100 + 1000 * polls
  (⟨st (polls + 1), finish⟩, polls)

/-- One supervisor tick: lines 203-217 of `loop`.  `wifiConnected` is the
read of `WiFi.status()` made by the tick itself, `st` is the status oracle handed to a
`connectToPrimaryWiFi` call made by this tick, `now` is `millis()`.
Returns the new supervisor state and whether a connection attempt was
issued.  Note the disjunction on line 206: when `isPrimaryConnected` is
already false the elapsed-time backoff test is short-circuited away. -/
def loopTick (wifiConnected : Bool) (st : Nat → Bool) (now : Nat)
    (c : ConnState) : ConnState × Bool :=
  if wifiConnected = false then
    if c.isPrimaryConnected = false ∨ now - c.lastReconnectAttempt > reconnectInterval then
      ((connectToPrimaryWiFi st now).1, true)
    else (c, false)
  else if c.isPrimaryConnected = false then
    (⟨true, c.lastReconnectAttempt⟩, false)
  else (c, false)

/-!
Status reporter: `updateBLEStatus` (lines 370-404).  The JSON document is
modelled as the ordered key/value list the code inserts.
-/

/-- A JSON scalar as used by the status document. -/
inductive JVal where
  | s (v : String)
  | i (v : Int)
  | b (v : Bool)
deriving DecidableEq, Repr

/-- The live radio / system readings `updateBLEStatus` samples from the
facade: `WiFi.status() == WL_CONNECTED`, `WiFi.localIP()`, `WiFi.RSSI()`,
`WiFi.softAPIP()`, `WiFi.softAPgetStationNum()`, `ESP.getFreeHeap()`,
`millis()`. -/
structure Metrics where
  wifiConnected : Bool
  localIP : String
  rssi : Int
  apIP : String
  clientCount : Int
  freeHeap : Int
  uptimeMillis : Nat
deriving DecidableEq, Repr

/-- The status document built by `updateBLEStatus` (lines 373-395), as the
ordered list of key/value insertions.  The `switch (powerSaveMode)` on
lines 386-390 has cases only for 0, 1, 2 and no default, so a mode outside
0..2 would leave the `powerMode` key out of the document. -/
def statusDoc (s : Store) (m : Metrics) : List (String × JVal) :=
  [("primaryConnected", JVal.b m.wifiConnected),
   ("primarySSID", JVal.s s.primarySSID),
   ("primaryIP", JVal.s m.localIP),
   ("primaryRSSI", JVal.i m.rssi),
   ("apSSID", JVal.s s.apSSID),
   ("apIP", JVal.s m.apIP),
   ("connectedClients", JVal.i m.clientCount),
   ("powerSaving", JVal.b s.powerSavingEnabled)]
  ++ (if s.powerSaveMode = 0 then [("powerMode", JVal.i 0)]
      else if s.powerSaveMode = 1 then [("powerMode", JVal.i 1)]
      else if s.powerSaveMode = 2 then [("powerMode", JVal.i 2)]
      else [])
  ++ [("listenInterval", JVal.i s.listenInterval),
      ("freeHeap", JVal.i m.freeHeap),
      ("uptime", JVal.i (m.uptimeMillis / 1000))]

/-- The twelve status keys of §6 of the interface description, in the order
`updateBLEStatus` inserts them. -/
def statusKeys : List String :=
  ["primaryConnected", "primarySSID", "primaryIP", "primaryRSSI",
   "apSSID", "apIP", "connectedClients", "powerSaving", "powerMode",
   "listenInterval", "freeHeap", "uptime"]

/-- Classification of facade calls into the four phases of `applySettings`:
power save (0), access point (1), station reconnect (2), status push (3). -/
def Effect.phase : Effect → Nat
  | Effect.setPowerSave _ => 0
  | Effect.setListenInterval _ => 0
  | Effect.softAPConfig => 1
  | Effect.softAPStart _ _ _ _ _ => 1
  | Effect.staDisconnect => 2
  | Effect.staBegin _ _ => 2
  | Effect.statusPush => 3

/-- Is this facade call the AP (re)start `WiFi.softAP(...)`? -/
def Effect.isApStart : Effect → Bool
  | Effect.softAPStart _ _ _ _ _ => true
  | _ => false

/-- Is this facade call the station `WiFi.begin(...)`? -/
def Effect.isStaBegin : Effect → Bool
  | Effect.staBegin _ _ => true
  | _ => false

/-- Is this facade call part of a station reconnect sequence
(`WiFi.disconnect()` or `WiFi.begin(...)`)? -/
def Effect.isStaConnect : Effect → Bool
  | Effect.staDisconnect => true
  | Effect.staBegin _ _ => true
  | _ => false

/-- Spec-side description of the store after one update, following §4.1 of
the specification word for word: each present field is validated
independently against the §3 bounds, a failing field is dropped, a field is
only applied when its validated value differs from the stored one, each
credential pair is taken as a unit, and fields absent from the input are
left untouched.  (For `powerSaveMode` the reading of the specification — apply
when valid — coincides with the code on the stored value, since storing an
equal value changes nothing; the two differ only on the change *flags*,
compared elsewhere.)  To be diffed against `parseConfigFields`. -/
@[simps] def specStore (u : ConfigUpdate) (s : Store) : Store :=
  { primarySSID :=
      match u.primarySSID, u.primaryPass with
      | some n, some p =>
        if n ≠ s.primarySSID ∨ p ≠ s.primaryPassword then n else s.primarySSID
      | _, _ => s.primarySSID
    primaryPassword :=
      match u.primarySSID, u.primaryPass with
      | some n, some p =>
        if n ≠ s.primarySSID ∨ p ≠ s.primaryPassword then p else s.primaryPassword
      | _, _ => s.primaryPassword
    apSSID :=
      match u.apSSID, u.apPass with
      | some n, some p =>
        if n ≠ s.apSSID ∨ p ≠ s.apPassword then n else s.apSSID
      | _, _ => s.apSSID
    apPassword :=
      match u.apSSID, u.apPass with
      | some n, some p =>
        if n ≠ s.apSSID ∨ p ≠ s.apPassword then p else s.apPassword
      | _, _ => s.apPassword
    apChannel :=
      match u.channel with
      | some c => if c ≠ s.apChannel ∧ 1 ≤ c ∧ c ≤ 13 then c else s.apChannel
      | none => s.apChannel
    maxClients :=
      match u.maxClients with
      | some m => if m ≠ s.maxClients ∧ 0 < m ∧ m ≤ 10 then m else s.maxClients
      | none => s.maxClients
    powerSavingEnabled :=
      match u.powerSaving with
      | some e => if e ≠ s.powerSavingEnabled then e else s.powerSavingEnabled
      | none => s.powerSavingEnabled
    powerSaveMode :=
      match u.powerMode with
      | some q => if 0 ≤ q ∧ q ≤ 2 then q.toNat else s.powerSaveMode
      | none => s.powerSaveMode
    listenInterval :=
      match u.listenInterval with
      | some n => if n ≠ s.listenInterval ∧ 1 ≤ n ∧ n ≤ 10 then n else s.listenInterval
      | none => s.listenInterval }

/-- The store invariants of §3: channel in 1..13, max clients in 1..10,
listen interval in 1..10, power-save mode one of the three enum values
0, 1, 2.  (Credential strings are Lean `String`s and hence never null by
construction.) -/
def StoreInv (s : Store) : Prop :=
  1 ≤ s.apChannel ∧ s.apChannel ≤ 13 ∧
  1 ≤ s.maxClients ∧ s.maxClients ≤ 10 ∧
  1 ≤ s.listenInterval ∧ s.listenInterval ≤ 10 ∧
  s.powerSaveMode ≤ 2

instance (s : Store) : Decidable (StoreInv s) := by
  unfold StoreInv
  infer_instance

/-!
Frame lemmas: each field block of `parseConfig` touches only its own globals
and never clears a flag; every other projection passes through unchanged.
-/

section Frames

variable (a b : Option String) (o : Option Int) (p : Option Bool)
variable (x : Store × Bool × Bool)

@[simp] lemma stepPrimary_apSSID :
    (stepPrimary a b x).1.apSSID = x.1.apSSID := by
  cases a <;> cases b <;> simp only [stepPrimary] <;> (try split) <;> rfl

@[simp] lemma stepPrimary_apPassword :
    (stepPrimary a b x).1.apPassword = x.1.apPassword := by
  cases a <;> cases b <;> simp only [stepPrimary] <;> (try split) <;> rfl

@[simp] lemma stepPrimary_apChannel :
    (stepPrimary a b x).1.apChannel = x.1.apChannel := by
  cases a <;> cases b <;> simp only [stepPrimary] <;> (try split) <;> rfl

@[simp] lemma stepPrimary_maxClients :
    (stepPrimary a b x).1.maxClients = x.1.maxClients := by
  cases a <;> cases b <;> simp only [stepPrimary] <;> (try split) <;> rfl

@[simp] lemma stepPrimary_powerSavingEnabled :
    (stepPrimary a b x).1.powerSavingEnabled = x.1.powerSavingEnabled := by
  cases a <;> cases b <;> simp only [stepPrimary] <;> (try split) <;> rfl

@[simp] lemma stepPrimary_powerSaveMode :
    (stepPrimary a b x).1.powerSaveMode = x.1.powerSaveMode := by
  cases a <;> cases b <;> simp only [stepPrimary] <;> (try split) <;> rfl

@[simp] lemma stepPrimary_listenInterval :
    (stepPrimary a b x).1.listenInterval = x.1.listenInterval := by
  cases a <;> cases b <;> simp only [stepPrimary] <;> (try split) <;> rfl

@[simp] lemma stepAP_primarySSID :
    (stepAP a b x).1.primarySSID = x.1.primarySSID := by
  cases a <;> cases b <;> simp only [stepAP] <;> (try split) <;> rfl

@[simp] lemma stepAP_primaryPassword :
    (stepAP a b x).1.primaryPassword = x.1.primaryPassword := by
  cases a <;> cases b <;> simp only [stepAP] <;> (try split) <;> rfl

@[simp] lemma stepAP_apChannel :
    (stepAP a b x).1.apChannel = x.1.apChannel := by
  cases a <;> cases b <;> simp only [stepAP] <;> (try split) <;> rfl

@[simp] lemma stepAP_maxClients :
    (stepAP a b x).1.maxClients = x.1.maxClients := by
  cases a <;> cases b <;> simp only [stepAP] <;> (try split) <;> rfl

@[simp] lemma stepAP_powerSavingEnabled :
    (stepAP a b x).1.powerSavingEnabled = x.1.powerSavingEnabled := by
  cases a <;> cases b <;> simp only [stepAP] <;> (try split) <;> rfl

@[simp] lemma stepAP_powerSaveMode :
    (stepAP a b x).1.powerSaveMode = x.1.powerSaveMode := by
  cases a <;> cases b <;> simp only [stepAP] <;> (try split) <;> rfl

@[simp] lemma stepAP_listenInterval :
    (stepAP a b x).1.listenInterval = x.1.listenInterval := by
  cases a <;> cases b <;> simp only [stepAP] <;> (try split) <;> rfl

@[simp] lemma stepAP_wifiFlag :
    (stepAP a b x).2.2 = x.2.2 := by
  cases a <;> cases b <;> simp only [stepAP] <;> (try split) <;> rfl

@[simp] lemma stepChannel_primarySSID :
    (stepChannel o x).1.primarySSID = x.1.primarySSID := by
  cases o <;> simp only [stepChannel] <;> (try split) <;> rfl

@[simp] lemma stepChannel_primaryPassword :
    (stepChannel o x).1.primaryPassword = x.1.primaryPassword := by
  cases o <;> simp only [stepChannel] <;> (try split) <;> rfl

@[simp] lemma stepChannel_apSSID :
    (stepChannel o x).1.apSSID = x.1.apSSID := by
  cases o <;> simp only [stepChannel] <;> (try split) <;> rfl

@[simp] lemma stepChannel_apPassword :
    (stepChannel o x).1.apPassword = x.1.apPassword := by
  cases o <;> simp only [stepChannel] <;> (try split) <;> rfl

@[simp] lemma stepChannel_maxClients :
    (stepChannel o x).1.maxClients = x.1.maxClients := by
  cases o <;> simp only [stepChannel] <;> (try split) <;> rfl

@[simp] lemma stepChannel_powerSavingEnabled :
    (stepChannel o x).1.powerSavingEnabled = x.1.powerSavingEnabled := by
  cases o <;> simp only [stepChannel] <;> (try split) <;> rfl

@[simp] lemma stepChannel_powerSaveMode :
    (stepChannel o x).1.powerSaveMode = x.1.powerSaveMode := by
  cases o <;> simp only [stepChannel] <;> (try split) <;> rfl

@[simp] lemma stepChannel_listenInterval :
    (stepChannel o x).1.listenInterval = x.1.listenInterval := by
  cases o <;> simp only [stepChannel] <;> (try split) <;> rfl

@[simp] lemma stepChannel_wifiFlag :
    (stepChannel o x).2.2 = x.2.2 := by
  cases o <;> simp only [stepChannel] <;> (try split) <;> rfl

@[simp] lemma stepMaxClients_primarySSID :
    (stepMaxClients o x).1.primarySSID = x.1.primarySSID := by
  cases o <;> simp only [stepMaxClients] <;> (try split) <;> rfl

@[simp] lemma stepMaxClients_primaryPassword :
    (stepMaxClients o x).1.primaryPassword = x.1.primaryPassword := by
  cases o <;> simp only [stepMaxClients] <;> (try split) <;> rfl

@[simp] lemma stepMaxClients_apSSID :
    (stepMaxClients o x).1.apSSID = x.1.apSSID := by
  cases o <;> simp only [stepMaxClients] <;> (try split) <;> rfl

@[simp] lemma stepMaxClients_apPassword :
    (stepMaxClients o x).1.apPassword = x.1.apPassword := by
  cases o <;> simp only [stepMaxClients] <;> (try split) <;> rfl

@[simp] lemma stepMaxClients_apChannel :
    (stepMaxClients o x).1.apChannel = x.1.apChannel := by
  cases o <;> simp only [stepMaxClients] <;> (try split) <;> rfl

@[simp] lemma stepMaxClients_powerSavingEnabled :
    (stepMaxClients o x).1.powerSavingEnabled = x.1.powerSavingEnabled := by
  cases o <;> simp only [stepMaxClients] <;> (try split) <;> rfl

@[simp] lemma stepMaxClients_powerSaveMode :
    (stepMaxClients o x).1.powerSaveMode = x.1.powerSaveMode := by
  cases o <;> simp only [stepMaxClients] <;> (try split) <;> rfl

@[simp] lemma stepMaxClients_listenInterval :
    (stepMaxClients o x).1.listenInterval = x.1.listenInterval := by
  cases o <;> simp only [stepMaxClients] <;> (try split) <;> rfl

@[simp] lemma stepMaxClients_wifiFlag :
    (stepMaxClients o x).2.2 = x.2.2 := by
  cases o <;> simp only [stepMaxClients] <;> (try split) <;> rfl

@[simp] lemma stepPowerSaving_primarySSID :
    (stepPowerSaving p x).1.primarySSID = x.1.primarySSID := by
  cases p <;> simp only [stepPowerSaving] <;> (try split) <;> rfl

@[simp] lemma stepPowerSaving_primaryPassword :
    (stepPowerSaving p x).1.primaryPassword = x.1.primaryPassword := by
  cases p <;> simp only [stepPowerSaving] <;> (try split) <;> rfl

@[simp] lemma stepPowerSaving_apSSID :
    (stepPowerSaving p x).1.apSSID = x.1.apSSID := by
  cases p <;> simp only [stepPowerSaving] <;> (try split) <;> rfl

@[simp] lemma stepPowerSaving_apPassword :
    (stepPowerSaving p x).1.apPassword = x.1.apPassword := by
  cases p <;> simp only [stepPowerSaving] <;> (try split) <;> rfl

@[simp] lemma stepPowerSaving_apChannel :
    (stepPowerSaving p x).1.apChannel = x.1.apChannel := by
  cases p <;> simp only [stepPowerSaving] <;> (try split) <;> rfl

@[simp] lemma stepPowerSaving_maxClients :
    (stepPowerSaving p x).1.maxClients = x.1.maxClients := by
  cases p <;> simp only [stepPowerSaving] <;> (try split) <;> rfl

@[simp] lemma stepPowerSaving_powerSaveMode :
    (stepPowerSaving p x).1.powerSaveMode = x.1.powerSaveMode := by
  cases p <;> simp only [stepPowerSaving] <;> (try split) <;> rfl

@[simp] lemma stepPowerSaving_listenInterval :
    (stepPowerSaving p x).1.listenInterval = x.1.listenInterval := by
  cases p <;> simp only [stepPowerSaving] <;> (try split) <;> rfl

@[simp] lemma stepPowerSaving_wifiFlag :
    (stepPowerSaving p x).2.2 = x.2.2 := by
  cases p <;> simp only [stepPowerSaving] <;> (try split) <;> rfl

@[simp] lemma stepPowerMode_primarySSID :
    (stepPowerMode o x).1.primarySSID = x.1.primarySSID := by
  cases o <;> simp only [stepPowerMode] <;> (try split) <;> rfl

@[simp] lemma stepPowerMode_primaryPassword :
    (stepPowerMode o x).1.primaryPassword = x.1.primaryPassword := by
  cases o <;> simp only [stepPowerMode] <;> (try split) <;> rfl

@[simp] lemma stepPowerMode_apSSID :
    (stepPowerMode o x).1.apSSID = x.1.apSSID := by
  cases o <;> simp only [stepPowerMode] <;> (try split) <;> rfl

@[simp] lemma stepPowerMode_apPassword :
    (stepPowerMode o x).1.apPassword = x.1.apPassword := by
  cases o <;> simp only [stepPowerMode] <;> (try split) <;> rfl

@[simp] lemma stepPowerMode_apChannel :
    (stepPowerMode o x).1.apChannel = x.1.apChannel := by
  cases o <;> simp only [stepPowerMode] <;> (try split) <;> rfl

@[simp] lemma stepPowerMode_maxClients :
    (stepPowerMode o x).1.maxClients = x.1.maxClients := by
  cases o <;> simp only [stepPowerMode] <;> (try split) <;> rfl

@[simp] lemma stepPowerMode_powerSavingEnabled :
    (stepPowerMode o x).1.powerSavingEnabled = x.1.powerSavingEnabled := by
  cases o <;> simp only [stepPowerMode] <;> (try split) <;> rfl

@[simp] lemma stepPowerMode_listenInterval :
    (stepPowerMode o x).1.listenInterval = x.1.listenInterval := by
  cases o <;> simp only [stepPowerMode] <;> (try split) <;> rfl

@[simp] lemma stepPowerMode_wifiFlag :
    (stepPowerMode o x).2.2 = x.2.2 := by
  cases o <;> simp only [stepPowerMode] <;> (try split) <;> rfl

@[simp] lemma stepListenInterval_primarySSID :
    (stepListenInterval o x).1.primarySSID = x.1.primarySSID := by
  cases o <;> simp only [stepListenInterval] <;> (try split) <;> rfl

@[simp] lemma stepListenInterval_primaryPassword :
    (stepListenInterval o x).1.primaryPassword = x.1.primaryPassword := by
  cases o <;> simp only [stepListenInterval] <;> (try split) <;> rfl

@[simp] lemma stepListenInterval_apSSID :
    (stepListenInterval o x).1.apSSID = x.1.apSSID := by
  cases o <;> simp only [stepListenInterval] <;> (try split) <;> rfl

@[simp] lemma stepListenInterval_apPassword :
    (stepListenInterval o x).1.apPassword = x.1.apPassword := by
  cases o <;> simp only [stepListenInterval] <;> (try split) <;> rfl

@[simp] lemma stepListenInterval_apChannel :
    (stepListenInterval o x).1.apChannel = x.1.apChannel := by
  cases o <;> simp only [stepListenInterval] <;> (try split) <;> rfl

@[simp] lemma stepListenInterval_maxClients :
    (stepListenInterval o x).1.maxClients = x.1.maxClients := by
  cases o <;> simp only [stepListenInterval] <;> (try split) <;> rfl

@[simp] lemma stepListenInterval_powerSavingEnabled :
    (stepListenInterval o x).1.powerSavingEnabled = x.1.powerSavingEnabled := by
  cases o <;> simp only [stepListenInterval] <;> (try split) <;> rfl

@[simp] lemma stepListenInterval_powerSaveMode :
    (stepListenInterval o x).1.powerSaveMode = x.1.powerSaveMode := by
  cases o <;> simp only [stepListenInterval] <;> (try split) <;> rfl

@[simp] lemma stepListenInterval_wifiFlag :
    (stepListenInterval o x).2.2 = x.2.2 := by
  cases o <;> simp only [stepListenInterval] <;> (try split) <;> rfl

end Frames

/-- Refinement: the store produced by the sequential field processing of the code
is exactly the field-wise independent store of the specification.  In
particular the outcome for one field depends on no other field of the update. -/
lemma parseConfigFields_fst (u : ConfigUpdate) (s : Store) :
    (parseConfigFields u s).1 = specStore u s := by
  have hps : (parseConfigFields u s).1.primarySSID = (specStore u s).primarySSID := by
    simp only [parseConfigFields, specStore, stepListenInterval_primarySSID,
      stepPowerMode_primarySSID, stepPowerSaving_primarySSID,
      stepMaxClients_primarySSID, stepChannel_primarySSID, stepAP_primarySSID]
    cases u.primarySSID <;> cases u.primaryPass <;>
      simp only [stepPrimary] <;> (try split) <;> rfl
  have hpp : (parseConfigFields u s).1.primaryPassword = (specStore u s).primaryPassword := by
    simp only [parseConfigFields, specStore, stepListenInterval_primaryPassword,
      stepPowerMode_primaryPassword, stepPowerSaving_primaryPassword,
      stepMaxClients_primaryPassword, stepChannel_primaryPassword, stepAP_primaryPassword]
    cases u.primarySSID <;> cases u.primaryPass <;>
      simp only [stepPrimary] <;> (try split) <;> rfl
  have has : (parseConfigFields u s).1.apSSID = (specStore u s).apSSID := by
    simp only [parseConfigFields, specStore, stepListenInterval_apSSID,
      stepPowerMode_apSSID, stepPowerSaving_apSSID,
      stepMaxClients_apSSID, stepChannel_apSSID]
    cases u.apSSID <;> cases u.apPass <;>
      simp only [stepAP, stepPrimary_apSSID, stepPrimary_apPassword] <;>
      (try split) <;> simp [stepPrimary_apSSID]
  have hap : (parseConfigFields u s).1.apPassword = (specStore u s).apPassword := by
    simp only [parseConfigFields, specStore, stepListenInterval_apPassword,
      stepPowerMode_apPassword, stepPowerSaving_apPassword,
      stepMaxClients_apPassword, stepChannel_apPassword]
    cases u.apSSID <;> cases u.apPass <;>
      simp only [stepAP, stepPrimary_apSSID, stepPrimary_apPassword] <;>
      (try split) <;> simp [stepPrimary_apPassword]
  have hch : (parseConfigFields u s).1.apChannel = (specStore u s).apChannel := by
    simp only [parseConfigFields, specStore, stepListenInterval_apChannel,
      stepPowerMode_apChannel, stepPowerSaving_apChannel, stepMaxClients_apChannel]
    cases u.channel <;>
      simp only [stepChannel, stepAP_apChannel, stepPrimary_apChannel] <;>
      (try split) <;> simp [stepAP_apChannel, stepPrimary_apChannel]
  have hmc : (parseConfigFields u s).1.maxClients = (specStore u s).maxClients := by
    simp only [parseConfigFields, specStore, stepListenInterval_maxClients,
      stepPowerMode_maxClients, stepPowerSaving_maxClients]
    cases u.maxClients <;>
      simp only [stepMaxClients, stepChannel_maxClients, stepAP_maxClients,
        stepPrimary_maxClients] <;>
      (try split) <;> simp [stepChannel_maxClients, stepAP_maxClients, stepPrimary_maxClients]
  have hpe : (parseConfigFields u s).1.powerSavingEnabled = (specStore u s).powerSavingEnabled := by
    simp only [parseConfigFields, specStore, stepListenInterval_powerSavingEnabled,
      stepPowerMode_powerSavingEnabled]
    cases u.powerSaving <;>
      simp only [stepPowerSaving, stepMaxClients_powerSavingEnabled,
        stepChannel_powerSavingEnabled, stepAP_powerSavingEnabled,
        stepPrimary_powerSavingEnabled] <;>
      (try split) <;>
      simp [stepMaxClients_powerSavingEnabled, stepChannel_powerSavingEnabled,
        stepAP_powerSavingEnabled, stepPrimary_powerSavingEnabled]
  have hpm : (parseConfigFields u s).1.powerSaveMode = (specStore u s).powerSaveMode := by
    simp only [parseConfigFields, specStore, stepListenInterval_powerSaveMode]
    cases u.powerMode <;>
      simp only [stepPowerMode, stepPowerSaving_powerSaveMode,
        stepMaxClients_powerSaveMode, stepChannel_powerSaveMode,
        stepAP_powerSaveMode, stepPrimary_powerSaveMode] <;>
      (try split) <;>
      simp [stepPowerSaving_powerSaveMode, stepMaxClients_powerSaveMode,
        stepChannel_powerSaveMode, stepAP_powerSaveMode, stepPrimary_powerSaveMode]
  have hli : (parseConfigFields u s).1.listenInterval = (specStore u s).listenInterval := by
    simp only [parseConfigFields, specStore]
    cases u.listenInterval <;>
      simp only [stepListenInterval, stepPowerMode_listenInterval,
        stepPowerSaving_listenInterval, stepMaxClients_listenInterval,
        stepChannel_listenInterval, stepAP_listenInterval, stepPrimary_listenInterval] <;>
      (try split) <;>
      simp [stepPowerMode_listenInterval, stepPowerSaving_listenInterval,
        stepMaxClients_listenInterval, stepChannel_listenInterval,
        stepAP_listenInterval, stepPrimary_listenInterval]
  cases h1 : (parseConfigFields u s).1
  cases h2 : specStore u s
  simp_all

/-- An out-of-range channel value leaves the whole parse state untouched. -/
lemma stepChannel_invalid (c : Int) (x : Store × Bool × Bool)
    (h : c < 1 ∨ 13 < c) : stepChannel (some c) x = x := by
  simp only [stepChannel]
  rw [if_neg]
  rintro ⟨-, h1, h2⟩
  omega

/-- An out-of-range max-clients value leaves the whole parse state untouched. -/
lemma stepMaxClients_invalid (m : Int) (x : Store × Bool × Bool)
    (h : m < 1 ∨ 10 < m) : stepMaxClients (some m) x = x := by
  simp only [stepMaxClients]
  rw [if_neg]
  rintro ⟨-, h1, h2⟩
  omega

/-- An out-of-range power-mode value leaves the whole parse state untouched. -/
lemma stepPowerMode_invalid (q : Int) (x : Store × Bool × Bool)
    (h : q < 0 ∨ 2 < q) : stepPowerMode (some q) x = x := by
  simp only [stepPowerMode]
  rw [if_neg]
  rintro ⟨h1, h2⟩
  omega

/-- An out-of-range listen-interval value leaves the whole parse state
untouched. -/
lemma stepListenInterval_invalid (n : Int) (x : Store × Bool × Bool)
    (h : n < 1 ∨ 10 < n) : stepListenInterval (some n) x = x := by
  simp only [stepListenInterval]
  rw [if_neg]
  rintro ⟨-, h1, h2⟩
  omega

/-- With either key of the primary credential pair missing, the block is
skipped entirely. -/
lemma stepPrimary_missing (a b : Option String) (x : Store × Bool × Bool)
    (h : a = none ∨ b = none) : stepPrimary a b x = x := by
  rcases h with h | h
  · subst h; cases b <;> rfl
  · subst h; cases a <;> rfl

/-- With either key of the AP credential pair missing, the block is skipped
entirely. -/
lemma stepAP_missing (a b : Option String) (x : Store × Bool × Bool)
    (h : a = none ∨ b = none) : stepAP a b x = x := by
  rcases h with h | h
  · subst h; cases b <;> rfl
  · subst h; cases a <;> rfl

/-- The `wifiChanged` flag is decided by the primary-credentials block alone. -/
lemma parseConfigFields_wifiFlag (u : ConfigUpdate) (s : Store) :
    (parseConfigFields u s).2.2 =
      (stepPrimary u.primarySSID u.primaryPass (s, false, false)).2.2 := by
  simp only [parseConfigFields, stepListenInterval_wifiFlag, stepPowerMode_wifiFlag,
    stepPowerSaving_wifiFlag, stepMaxClients_wifiFlag, stepChannel_wifiFlag,
    stepAP_wifiFlag]

/-- When the update does not change the primary credentials, `wifiChanged`
stays false. -/
lemma parseConfigFields_wifiFlag_false (u : ConfigUpdate) (s : Store)
    (h : u.primarySSID = none ∨ u.primaryPass = none ∨
      (u.primarySSID = some s.primarySSID ∧ u.primaryPass = some s.primaryPassword)) :
    (parseConfigFields u s).2.2 = false := by
  rw [parseConfigFields_wifiFlag]
  rcases h with h | h | ⟨h1, h2⟩
  · rw [stepPrimary_missing _ _ _ (Or.inl h)]
  · rw [stepPrimary_missing _ _ _ (Or.inr h)]
  · rw [h1, h2]
    simp only [stepPrimary]
    rw [if_neg]
    simp

/-- One parsed update preserves the store invariants. -/
lemma inv_specStore (u : ConfigUpdate) (s : Store) (h : StoreInv s) :
    StoreInv (specStore u s) := by
  obtain ⟨h1, h2, h3, h4, h5, h6, h7⟩ := h
  refine ⟨?_, ?_, ?_, ?_, ?_, ?_, ?_⟩ <;>
    simp only [specStore_apChannel, specStore_maxClients,
      specStore_listenInterval, specStore_powerSaveMode] <;>
    (repeat' split) <;> omega

/-- Any update — malformed or parsed — preserves the store invariants. -/
lemma inv_parseConfig (d : Except String ConfigUpdate) (s : Store) (h : StoreInv s) :
    StoreInv (parseConfig d s).1 := by
  cases d with
  | error e => exact h
  | ok u =>
    have hf : (parseConfig (Except.ok u) s).1 = (parseConfigFields u s).1 := by
      rcases hx : parseConfigFields u s with ⟨s2, c, w⟩
      simp [parseConfig, hx]
    rw [hf, parseConfigFields_fst]
    exact inv_specStore u s h

/-- Invariant preservation along any update sequence, from any invariant
state. -/
lemma inv_applyAll_from (docs : List (Except String ConfigUpdate)) :
    ∀ s : Store, StoreInv s → StoreInv (applyAll docs s) := by
  induction docs with
  | nil => exact fun s h => h
  | cons d ds ih =>
    intro s h
    exact ih _ (inv_parseConfig d s h)

/-- The invariants hold at boot and after any sequence of updates. -/
lemma inv_applyAll (docs : List (Except String ConfigUpdate)) :
    StoreInv (applyAll docs defaultStore) :=
  inv_applyAll_from docs defaultStore (by decide)

/-- Unfolding `parseConfig` on a parsed document, written with projections. -/
lemma parseConfig_ok (u : ConfigUpdate) (s : Store) :
    parseConfig (Except.ok u) s =
      ((parseConfigFields u s).1,
       if (parseConfigFields u s).2.1 then
         applySettings (parseConfigFields u s).1 (parseConfigFields u s).2.2
       else []) := by
  rcases hx : parseConfigFields u s with ⟨s2, c, w⟩
  simp [parseConfig, hx]

/-- An out-of-range channel is equivalent to an absent channel key. -/
lemma parseConfig_drop_channel (u : ConfigUpdate) (s : Store) (c : Int)
    (hc : u.channel = some c) (h : c < 1 ∨ 13 < c) :
    parseConfig (Except.ok u) s =
      parseConfig (Except.ok { u with channel := none }) s := by
  have hfe : parseConfigFields u s = parseConfigFields { u with channel := none } s := by
    unfold parseConfigFields
    rw [hc, stepChannel_invalid _ _ h]
    rfl
  simp only [parseConfig, hfe]

/-- An out-of-range max-clients value is equivalent to an absent key. -/
lemma parseConfig_drop_maxClients (u : ConfigUpdate) (s : Store) (m : Int)
    (hm : u.maxClients = some m) (h : m < 1 ∨ 10 < m) :
    parseConfig (Except.ok u) s =
      parseConfig (Except.ok { u with maxClients := none }) s := by
  have hfe : parseConfigFields u s = parseConfigFields { u with maxClients := none } s := by
    unfold parseConfigFields
    rw [hm, stepMaxClients_invalid _ _ h]
    rfl
  simp only [parseConfig, hfe]

/-- An out-of-range power-mode value is equivalent to an absent key. -/
lemma parseConfig_drop_powerMode (u : ConfigUpdate) (s : Store) (q : Int)
    (hq : u.powerMode = some q) (h : q < 0 ∨ 2 < q) :
    parseConfig (Except.ok u) s =
      parseConfig (Except.ok { u with powerMode := none }) s := by
  have hfe : parseConfigFields u s = parseConfigFields { u with powerMode := none } s := by
    unfold parseConfigFields
    rw [hq, stepPowerMode_invalid _ _ h]
    rfl
  simp only [parseConfig, hfe]

/-- An out-of-range listen-interval value is equivalent to an absent key. -/
lemma parseConfig_drop_listenInterval (u : ConfigUpdate) (s : Store) (n : Int)
    (hn : u.listenInterval = some n) (h : n < 1 ∨ 10 < n) :
    parseConfig (Except.ok u) s =
      parseConfig (Except.ok { u with listenInterval := none }) s := by
  have hfe : parseConfigFields u s = parseConfigFields { u with listenInterval := none } s := by
    unfold parseConfigFields
    rw [hn, stepListenInterval_invalid _ _ h]
    rfl
  simp only [parseConfig, hfe]

/-- A lone primary-credential key is equivalent to both keys absent. -/
lemma parseConfig_drop_primaryPair (u : ConfigUpdate) (s : Store)
    (h : u.primarySSID = none ∨ u.primaryPass = none) :
    parseConfig (Except.ok u) s =
      parseConfig (Except.ok { u with primarySSID := none, primaryPass := none }) s := by
  have hfe : parseConfigFields u s =
      parseConfigFields { u with primarySSID := none, primaryPass := none } s := by
    unfold parseConfigFields
    rw [stepPrimary_missing _ _ _ h, stepPrimary_missing _ _ _ (Or.inl rfl)]
  simp only [parseConfig, hfe]

/-- A lone AP-credential key is equivalent to both keys absent. -/
lemma parseConfig_drop_apPair (u : ConfigUpdate) (s : Store)
    (h : u.apSSID = none ∨ u.apPass = none) :
    parseConfig (Except.ok u) s =
      parseConfig (Except.ok { u with apSSID := none, apPass := none }) s := by
  have hfe : parseConfigFields u s =
      parseConfigFields { u with apSSID := none, apPass := none } s := by
    unfold parseConfigFields
    rw [stepAP_missing _ _ _ h, stepAP_missing _ _ _ (Or.inl rfl)]
  simp only [parseConfig, hfe]

/-- Out-of-range channel: the stored channel survives. -/
lemma channel_invalid_unchanged (u : ConfigUpdate) (s : Store) (c : Int)
    (hc : u.channel = some c) (h : c < 1 ∨ 13 < c) :
    (parseConfigFields u s).1.apChannel = s.apChannel := by
  rw [parseConfigFields_fst, specStore_apChannel, hc]
  dsimp only
  rw [if_neg]
  rintro ⟨-, h1, h2⟩
  omega

/-- Out-of-range max clients: the stored value survives. -/
lemma maxClients_invalid_unchanged (u : ConfigUpdate) (s : Store) (m : Int)
    (hm : u.maxClients = some m) (h : m < 1 ∨ 10 < m) :
    (parseConfigFields u s).1.maxClients = s.maxClients := by
  rw [parseConfigFields_fst, specStore_maxClients, hm]
  dsimp only
  rw [if_neg]
  rintro ⟨-, h1, h2⟩
  omega

/-- Out-of-range power mode: the stored value survives. -/
lemma powerMode_invalid_unchanged (u : ConfigUpdate) (s : Store) (q : Int)
    (hq : u.powerMode = some q) (h : q < 0 ∨ 2 < q) :
    (parseConfigFields u s).1.powerSaveMode = s.powerSaveMode := by
  rw [parseConfigFields_fst, specStore_powerSaveMode, hq]
  dsimp only
  rw [if_neg]
  rintro ⟨h1, h2⟩
  omega

/-- Out-of-range listen interval: the stored value survives. -/
lemma listenInterval_invalid_unchanged (u : ConfigUpdate) (s : Store) (n : Int)
    (hn : u.listenInterval = some n) (h : n < 1 ∨ 10 < n) :
    (parseConfigFields u s).1.listenInterval = s.listenInterval := by
  rw [parseConfigFields_fst, specStore_listenInterval, hn]
  dsimp only
  rw [if_neg]
  rintro ⟨-, h1, h2⟩
  omega

/-- Running `applySettings` with `reconnectWifi = false` issues no station
connect/disconnect call. -/
lemma applySettings_no_staConnect (s : Store) :
    (applySettings s false).filter Effect.isStaConnect = [] := by
  cases hp : s.powerSavingEnabled <;>
    simp [applySettings, applyPowerSavingSettings, hp, Effect.isStaConnect]

/-- When the parsed update left `wifiChanged` false, the whole `parseConfig`
call issues no station connect/disconnect call. -/
lemma parseConfig_no_staConnect (u : ConfigUpdate) (s : Store)
    (hw : (parseConfigFields u s).2.2 = false) :
    ((parseConfig (Except.ok u) s).2).filter Effect.isStaConnect = [] := by
  rw [parseConfig_ok]
  dsimp only
  rw [hw]
  split
  · exact applySettings_no_staConnect _
  · rfl

/-- The polling loop never pushes `connectionAttempts` beyond 20. -/
lemma connectAttemptLoop_le (st : Nat → Bool) :
    ∀ (fuel a : Nat), a ≤ 20 → connectAttemptLoop st a fuel ≤ 20 := by
  intro fuel
  induction fuel with
  | zero => exact fun a h => h
  | succ f ih =>
    intro a h
    simp only [connectAttemptLoop]
    split
    · next hcond => exact ih (a + 1) (by omega)
    · exact h

/-!
The claims.
-/

/-- C1: the claim states that while the station link is down, a supervisor
tick issues no new connection attempt when fewer than 30 time units
(30000 ms) have elapsed since the last attempt.  The code violates this:
the disjunction on line 206 short-circuits the backoff whenever
`isPrimaryConnected` is false — which is precisely the state left behind by
every failed attempt — so such ticks reconnect immediately, contradicting
the comment on line 38 (`Try to reconnect every 30 seconds`).  Concrete
run: last attempt finished at 1000000 ms and left `isPrimaryConnected`
false; the link is still down at 1000100 ms, only 100 ms (less than
`reconnectInterval`) later, yet the tick issues a new attempt. -/
theorem tick_attempt_despite_backoff :
    1000100 - 1000000 ≤ reconnectInterval ∧
    (loopTick false (fun _ => false) 1000100 ⟨false, 1000000⟩).2 = true :=
  ⟨by decide, by decide⟩

/-- C2: the claim states that re-applying a valid update whose values equal
the stored ones produces no side effects, every unchanged field being
skipped.  The code violates this for `powerMode`: lines 149-161 set
`configChanged = true` whenever the value is merely in range 0..2, without
comparing it to the stored mode.  Sending `{"powerMode": 1}` to the default
store (whose mode is already WIFI_PS_MIN_MODEM = 1) leaves the store
unchanged yet re-runs the full side-effect sequence — power-save re-apply,
AP restart, status push — and, as the first conjunct shows the store is
returned to `defaultStore`, does so again on the second (and every further)
application. -/
theorem powerMode_update_not_idempotent :
    (parseConfig (Except.ok { ConfigUpdate.empty with powerMode := some 1 })
        defaultStore).1 = defaultStore ∧
    (parseConfig (Except.ok { ConfigUpdate.empty with powerMode := some 1 })
        defaultStore).2 =
      [Effect.setPowerSave 1, Effect.setListenInterval 3, Effect.softAPConfig,
       Effect.softAPStart "Shivam5G_Repeater" "" 7 0 8, Effect.statusPush] ∧
    (parseConfig (Except.ok { ConfigUpdate.empty with powerMode := some 1 })
        (parseConfig (Except.ok { ConfigUpdate.empty with powerMode := some 1 })
          defaultStore).1).2 =
      [Effect.setPowerSave 1, Effect.setListenInterval 3, Effect.softAPConfig,
       Effect.softAPStart "Shivam5G_Repeater" "" 7 0 8, Effect.statusPush] :=
  ⟨by decide, by decide, by decide⟩

/-- C3: an update carrying one out-of-range field among otherwise-valid
fields drops the invalid field silently and still applies everything else:
for each range-checked key (`channel`, `maxClients`, `powerMode`,
`listenInterval`), an out-of-range value makes the whole call — final
store and side effects — equal to the call without that key, leaves the
corresponding stored field untouched, and (last conjunct) every field of
the result is the field-wise independent validation `specStore` of its own
key alone, so one bad field never aborts the rest of the update. -/
theorem oneBadField_still_applied (u : ConfigUpdate) (s : Store) :
    (∀ c : Int, u.channel = some c → c < 1 ∨ 13 < c →
      parseConfig (Except.ok u) s =
        parseConfig (Except.ok { u with channel := none }) s ∧
      (parseConfigFields u s).1.apChannel = s.apChannel) ∧
    (∀ m : Int, u.maxClients = some m → m < 1 ∨ 10 < m →
      parseConfig (Except.ok u) s =
        parseConfig (Except.ok { u with maxClients := none }) s ∧
      (parseConfigFields u s).1.maxClients = s.maxClients) ∧
    (∀ q : Int, u.powerMode = some q → q < 0 ∨ 2 < q →
      parseConfig (Except.ok u) s =
        parseConfig (Except.ok { u with powerMode := none }) s ∧
      (parseConfigFields u s).1.powerSaveMode = s.powerSaveMode) ∧
    (∀ n : Int, u.listenInterval = some n → n < 1 ∨ 10 < n →
      parseConfig (Except.ok u) s =
        parseConfig (Except.ok { u with listenInterval := none }) s ∧
      (parseConfigFields u s).1.listenInterval = s.listenInterval) ∧
    (parseConfigFields u s).1 = specStore u s := by
  refine ⟨?_, ?_, ?_, ?_, parseConfigFields_fst u s⟩
  · exact fun c hc h =>
      ⟨parseConfig_drop_channel u s c hc h, channel_invalid_unchanged u s c hc h⟩
  · exact fun m hm h =>
      ⟨parseConfig_drop_maxClients u s m hm h, maxClients_invalid_unchanged u s m hm h⟩
  · exact fun q hq h =>
      ⟨parseConfig_drop_powerMode u s q hq h, powerMode_invalid_unchanged u s q hq h⟩
  · exact fun n hn h =>
      ⟨parseConfig_drop_listenInterval u s n hn h,
       listenInterval_invalid_unchanged u s n hn h⟩

/-- C3 witness: the update `{"channel": 99, "maxClients": 5}` behaves like
`{"maxClients": 5}` alone and leaves the channel at its stored value 7. -/
theorem oneBadField_still_applied_witness :
    parseConfig
        (Except.ok { ConfigUpdate.empty with channel := some 99, maxClients := some 5 })
        defaultStore =
      parseConfig
        (Except.ok { { ConfigUpdate.empty with channel := some 99, maxClients := some 5 }
          with channel := none })
        defaultStore ∧
    (parseConfigFields
        { ConfigUpdate.empty with channel := some 99, maxClients := some 5 }
        defaultStore).1.apChannel = defaultStore.apChannel :=
  (oneBadField_still_applied
      { ConfigUpdate.empty with channel := some 99, maxClients := some 5 }
      defaultStore).1 99 rfl (by decide)

/-- C4: after any sequence of configuration updates from the defaults the
store invariants hold — channel in 1..13, max clients in 1..10, listen
interval in 1..10, power-save mode one of the enum values 0/1/2 (credential
strings are total `String`s in the model, hence never null) — and an
out-of-range channel or max-clients value is rejected in any surrounding
update and any store. -/
theorem store_invariants_reachable :
    (∀ docs : List (Except String ConfigUpdate), StoreInv (applyAll docs defaultStore)) ∧
    (∀ (u : ConfigUpdate) (s : Store) (c : Int), u.channel = some c → c < 1 ∨ 13 < c →
      (parseConfigFields u s).1.apChannel = s.apChannel) ∧
    (∀ (u : ConfigUpdate) (s : Store) (m : Int), u.maxClients = some m → m < 1 ∨ 10 < m →
      (parseConfigFields u s).1.maxClients = s.maxClients) :=
  ⟨inv_applyAll, channel_invalid_unchanged, maxClients_invalid_unchanged⟩

/-- C4 witness: the invariants after the update `{"channel": 5}`, and the
rejections of channel 99 and of 11 clients, at concrete inputs. -/
theorem store_invariants_reachable_witness :
    StoreInv (applyAll [Except.ok { ConfigUpdate.empty with channel := some 5 }] defaultStore) ∧
    (parseConfigFields { ConfigUpdate.empty with channel := some 99 }
      defaultStore).1.apChannel = defaultStore.apChannel ∧
    (parseConfigFields { ConfigUpdate.empty with maxClients := some 11 }
      defaultStore).1.maxClients = defaultStore.maxClients :=
  ⟨store_invariants_reachable.1 [Except.ok { ConfigUpdate.empty with channel := some 5 }],
   store_invariants_reachable.2.1 { ConfigUpdate.empty with channel := some 99 }
     defaultStore 99 rfl (by decide),
   store_invariants_reachable.2.2 { ConfigUpdate.empty with maxClients := some 11 }
     defaultStore 11 rfl (by decide)⟩

/-- C5: a syntactically malformed JSON payload (a deserialization error,
lines 82-86) rejects the whole update: the store is returned unchanged and
no facade call is issued; the failure is only logged. -/
theorem malformed_json_rejected (e : String) (s : Store) :
    parseConfig (Except.error e) s = (s, []) := rfl

/-- C6: whenever any field changed, the side effects run in phase order
power save (0), access point (1), station reconnect (2), status push (3):
the phase trace is monotone, the AP is restarted exactly once, exactly one
station `WiFi.begin` happens iff the station credentials changed, the first
effect is a power-save call and the last is the status push. -/
theorem side_effect_order (u : ConfigUpdate) (s : Store)
    (h : (parseConfigFields u s).2.1 = true) :
    List.Chain' (· ≤ ·) (((parseConfig (Except.ok u) s).2).map Effect.phase) ∧
    (((parseConfig (Except.ok u) s).2).filter Effect.isApStart).length = 1 ∧
    (((parseConfig (Except.ok u) s).2).filter Effect.isStaBegin).length =
      (if (parseConfigFields u s).2.2 then 1 else 0) ∧
    (((parseConfig (Except.ok u) s).2).head?.map Effect.phase) = some 0 ∧
    ((parseConfig (Except.ok u) s).2).getLast? = some Effect.statusPush := by
  rw [parseConfig_ok]
  dsimp only
  rw [h]
  rw [if_pos rfl]
  cases hw : (parseConfigFields u s).2.2 <;>
    cases hp : (parseConfigFields u s).1.powerSavingEnabled <;>
    simp [applySettings, applyPowerSavingSettings, connectEffects, hp,
      Effect.phase, Effect.isApStart, Effect.isStaBegin, List.getLast?,
      List.chain'_cons]

/-- C6 witness: the concrete update `{"channel": 5}` against the default
store changes a field, and its side effects obey the phase ordering. -/
theorem side_effect_order_witness :
    List.Chain' (· ≤ ·)
      (((parseConfig (Except.ok { ConfigUpdate.empty with channel := some 5 })
          defaultStore).2).map Effect.phase) ∧
    (((parseConfig (Except.ok { ConfigUpdate.empty with channel := some 5 })
        defaultStore).2).filter Effect.isApStart).length = 1 ∧
    (((parseConfig (Except.ok { ConfigUpdate.empty with channel := some 5 })
        defaultStore).2).filter Effect.isStaBegin).length =
      (if (parseConfigFields { ConfigUpdate.empty with channel := some 5 }
          defaultStore).2.2 then 1 else 0) ∧
    (((parseConfig (Except.ok { ConfigUpdate.empty with channel := some 5 })
        defaultStore).2).head?.map Effect.phase) = some 0 ∧
    ((parseConfig (Except.ok { ConfigUpdate.empty with channel := some 5 })
        defaultStore).2).getLast? = some Effect.statusPush :=
  side_effect_order { ConfigUpdate.empty with channel := some 5 } defaultStore (by decide)

/-- C7: an update that does not change the station credentials — either
pair key absent, or both present and equal to the stored values — never
issues a station disconnect or `WiFi.begin`, whatever AP or power fields
it changes. -/
theorem apOnly_change_no_reconnect (u : ConfigUpdate) (s : Store)
    (h : u.primarySSID = none ∨ u.primaryPass = none ∨
      (u.primarySSID = some s.primarySSID ∧ u.primaryPass = some s.primaryPassword)) :
    ((parseConfig (Except.ok u) s).2).filter Effect.isStaConnect = [] :=
  parseConfig_no_staConnect u s (parseConfigFields_wifiFlag_false u s h)

/-- C7 witness: changing AP credentials, channel and power mode issues no
station connect call. -/
theorem apOnly_change_no_reconnect_witness :
    ((parseConfig
        (Except.ok
          { ConfigUpdate.empty with
            apSSID := some "NewAP"
            apPass := some "secret"
            channel := some 5
            powerSaving := some false })
        defaultStore).2).filter Effect.isStaConnect = [] :=
  apOnly_change_no_reconnect
    { ConfigUpdate.empty with
      apSSID := some "NewAP"
      apPass := some "secret"
      channel := some 5
      powerSaving := some false }
    defaultStore (Or.inl rfl)

/-- C8: every station connection attempt terminates after at most 20
one-time-unit (1000 ms) polls; the finish time `now + 100 + 1000 * polls`
is recorded as the last-attempt timestamp in success and give-up alike, and
the connected flag simply mirrors the final status read — in particular on
giving up (final read disconnected) the state remains disconnected, which
the caller treats as non-fatal. -/
theorem connect_attempt_bounded (st : Nat → Bool) (now : Nat) :
    (connectToPrimaryWiFi st now).2 ≤ 20 ∧
    (connectToPrimaryWiFi st now).1.lastReconnectAttempt =
      now + 100 + 1000 * (connectToPrimaryWiFi st now).2 ∧
    (connectToPrimaryWiFi st now).1.isPrimaryConnected =
      st ((connectToPrimaryWiFi st now).2 + 1) :=
  ⟨connectAttemptLoop_le st 21 0 (by omega), rfl, rfl⟩

/-- C9: for every reachable store (any update sequence from the defaults)
and any metrics snapshot, the serialized status document carries exactly
the twelve fixed keys in order — in particular `powerMode` is present
because the reachable power-save mode is always one of 0, 1, 2. -/
theorem status_payload_twelve_keys (docs : List (Except String ConfigUpdate))
    (m : Metrics) :
    (statusDoc (applyAll docs defaultStore) m).map Prod.fst = statusKeys := by
  obtain ⟨-, -, -, -, -, -, h7⟩ := inv_applyAll docs
  have h3 : (applyAll docs defaultStore).powerSaveMode = 0 ∨
      (applyAll docs defaultStore).powerSaveMode = 1 ∨
      (applyAll docs defaultStore).powerSaveMode = 2 := by omega
  rcases h3 with h | h | h <;> simp [statusDoc, statusKeys, h]

/-- C10: a credential pair is processed only when both of its keys are in
the same update: with either key absent the whole call equals the call with
both keys removed, both stored credential fields survive unchanged, and —
for the station pair — no reconnect call is issued. -/
theorem credential_pair_requires_both_keys (u : ConfigUpdate) (s : Store) :
    ((u.primarySSID = none ∨ u.primaryPass = none) →
      parseConfig (Except.ok u) s =
        parseConfig (Except.ok { u with primarySSID := none, primaryPass := none }) s ∧
      (parseConfigFields u s).1.primarySSID = s.primarySSID ∧
      (parseConfigFields u s).1.primaryPassword = s.primaryPassword ∧
      ((parseConfig (Except.ok u) s).2).filter Effect.isStaConnect = []) ∧
    ((u.apSSID = none ∨ u.apPass = none) →
      parseConfig (Except.ok u) s =
        parseConfig (Except.ok { u with apSSID := none, apPass := none }) s ∧
      (parseConfigFields u s).1.apSSID = s.apSSID ∧
      (parseConfigFields u s).1.apPassword = s.apPassword) := by
  constructor
  · intro h
    refine ⟨parseConfig_drop_primaryPair u s h, ?_, ?_,
      parseConfig_no_staConnect u s (parseConfigFields_wifiFlag_false u s
        (h.elim Or.inl (fun h2 => Or.inr (Or.inl h2))))⟩
    · rw [parseConfigFields_fst, specStore_primarySSID]
      rcases h with h | h
      · rw [h]
      · rw [h]; cases u.primarySSID <;> rfl
    · rw [parseConfigFields_fst, specStore_primaryPassword]
      rcases h with h | h
      · rw [h]
      · rw [h]; cases u.primarySSID <;> rfl
  · intro h
    refine ⟨parseConfig_drop_apPair u s h, ?_, ?_⟩
    · rw [parseConfigFields_fst, specStore_apSSID]
      rcases h with h | h
      · rw [h]
      · rw [h]; cases u.apSSID <;> rfl
    · rw [parseConfigFields_fst, specStore_apPassword]
      rcases h with h | h
      · rw [h]
      · rw [h]; cases u.apSSID <;> rfl

/-- C10 witness: `{"primarySSID":"Foo"}` (no `primaryPass`) leaves the
stored station credentials untouched and triggers no reconnect. -/
theorem credential_pair_requires_both_keys_witness :
    parseConfig (Except.ok { ConfigUpdate.empty with primarySSID := some "Foo" })
        defaultStore =
      parseConfig
        (Except.ok { { ConfigUpdate.empty with primarySSID := some "Foo" }
          with primarySSID := none, primaryPass := none })
        defaultStore ∧
    (parseConfigFields { ConfigUpdate.empty with primarySSID := some "Foo" }
      defaultStore).1.primarySSID = defaultStore.primarySSID ∧
    (parseConfigFields { ConfigUpdate.empty with primarySSID := some "Foo" }
      defaultStore).1.primaryPassword = defaultStore.primaryPassword ∧
    ((parseConfig (Except.ok { ConfigUpdate.empty with primarySSID := some "Foo" })
        defaultStore).2).filter Effect.isStaConnect = [] :=
  (credential_pair_requires_both_keys
      { ConfigUpdate.empty with primarySSID := some "Foo" } defaultStore).1
    (Or.inr rfl)
